import Mathlib

/-!
Verification of the gemu 6502-family CPU emulator.

The Go sources are shallowly embedded: machine bytes and words are `Nat`
with explicit `% 256` / `% 65536` at every point where the Go code's
`uint8` / `uint16` types wrap or truncate, memory is a function
`Nat → Nat`, and each instruction's semantics closure becomes a function
`CPU → Nat × CPU` returning the cycle count and the updated state.
Diagnostic string formatting in the Go code is pure output and is not
modelled.
-/

namespace Gemu

/-! Status flag bit masks, from gemu/flags.go. -/

def Carry : Nat := 0x01
def Zero : Nat := 0x02
def InterruptDisable : Nat := 0x04
def Decimal : Nat := 0x08
def Break : Nat := 0x10
def Unused : Nat := 0x20
def Overflow : Nat := 0x40
def Negative : Nat := 0x80

/-- The status register, from gemu/flags.go (`CpuFlag`). The `flags`
field is a byte. -/
structure CpuFlag where
  flags : Nat

def CpuFlag.Value (f : CpuFlag) : Nat := f.flags

/-- Reset (`CpuFlag.Reset`) sets the register to 0x24. -/
def CpuFlag.Reset (_f : CpuFlag) : CpuFlag := { flags := 0x24 }

/-- SetFlag ORs the bit in or ANDs it out (`&^` in Go is AND-NOT,
with the complement taken on 8 bits). -/
def CpuFlag.SetFlag (f : CpuFlag) (flag : Nat) (value : Bool) : CpuFlag :=
  if value then { flags := f.flags ||| flag }
  else { flags := f.flags &&& (flag ^^^ 0xFF) }

def CpuFlag.GetFlag (f : CpuFlag) (flag : Nat) : Bool :=
  decide (f.flags &&& flag ≠ 0)

def CpuFlag.GetFlagUint8 (f : CpuFlag) (flag : Nat) : Nat :=
  if f.flags &&& flag ≠ 0 then 1 else 0

def CpuFlag.SetCarry (f : CpuFlag) (value : Nat) : CpuFlag :=
  f.SetFlag Carry (decide (value &&& Carry ≠ 0))

def CpuFlag.SetZero (f : CpuFlag) (value : Nat) : CpuFlag :=
  f.SetFlag Zero (decide (value &&& Zero ≠ 0))

def CpuFlag.SetZeroByValue (f : CpuFlag) (value : Nat) : CpuFlag :=
  f.SetFlag Zero (decide (value = 0))

def CpuFlag.SetInterruptDisable (f : CpuFlag) (value : Nat) : CpuFlag :=
  f.SetFlag InterruptDisable (decide (value &&& InterruptDisable ≠ 0))

def CpuFlag.SetDecimal (f : CpuFlag) (value : Nat) : CpuFlag :=
  f.SetFlag Decimal (decide (value &&& Decimal ≠ 0))

def CpuFlag.SetOverflow (f : CpuFlag) (value : Nat) : CpuFlag :=
  f.SetFlag Overflow (decide (value &&& 0x40 ≠ 0))

def CpuFlag.SetNegative (f : CpuFlag) (value : Nat) : CpuFlag :=
  f.SetFlag Negative (decide (value &&& 0x80 ≠ 0))

/-! Registers and the CPU aggregate, from the cpu package. -/

/-- An 8-bit register with its immediately-previous value. Writes store
the byte (`% 256` encodes the `uint8` field type). -/
structure Register where
  value : Nat
  previous : Nat

def Register.SetRegister (r : Register) (v : Nat) : Register :=
  { previous := r.value, value := v % 256 }

def Register.GetValue (r : Register) : Nat := r.value

def Register.GetPrevious (r : Register) : Nat := r.previous

/-- The CPU state. `pc` is 16-bit, `SP` 8-bit, memory a flat 64KB byte
array modelled as a function. Scratch fields mirror the Go struct. -/
structure CPU where
  pc : Nat
  SP : Nat
  A : Register
  X : Register
  Y : Register
  Flags : CpuFlag
  TempValue : Nat
  TempValue16 : Nat
  TempAddress : Nat
  TempAddress_2 : Nat
  TempAddressValue : Nat
  PrevPC : Nat
  CyclesRemaining : Nat
  TotalCycles : Nat
  memory : Nat → Nat

/-- Reset of the CPU: pc 0xC000, SP 0xFD, registers zeroed, TotalCycles 7,
memory re-made as 64KB of zeros, flags reset to 0x24. -/
def CPU.Reset (c : CPU) : CPU :=
  { c with
    pc := 0xC000
    SP := 0xFD
    A := { value := 0x00, previous := 0x00 }
    X := { value := 0x00, previous := 0x00 }
    Y := { value := 0x00, previous := 0x00 }
    TotalCycles := 7
    memory := fun _ => 0
    Flags := c.Flags.Reset }

/-- LoadCartridge runs `copy(memory[0x8000:], PRG)` then
`copy(memory[0xC000:], PRG)`. Go's `copy` writes
`min(len(dst), len(src))` bytes; the second copy wins on overlap, hence
its window is tested first. -/
def CPU.LoadCartridge (c : CPU) (PRG : List Nat) : CPU :=
  { c with memory := fun a =>
      if 0xC000 ≤ a ∧ a < 0xC000 + min PRG.length 0x4000 then PRG.getD (a - 0xC000) 0
      else if 0x8000 ≤ a ∧ a < 0x8000 + min PRG.length 0x8000 then PRG.getD (a - 0x8000) 0
      else c.memory a }

def CPU.SetPC (c : CPU) (v : Nat) : CPU :=
  { c with PrevPC := c.pc, pc := v % 65536 }

def CPU.GetPC (c : CPU) : Nat := c.pc

/-- Fetch reads the byte at pc, record PrevPC, advance pc with
16-bit wrap, return the byte. -/
def CPU.Fetch (c : CPU) : Nat × CPU :=
  let ta := c.memory c.pc % 256
  (ta &&& 0xFF, { c with TempAddress := ta, PrevPC := c.pc, pc := (c.pc + 1) % 65536 })

/-- Fetch16 fetches the low byte first, then the high; combined as
`high<<8 | low`. -/
def CPU.Fetch16 (c : CPU) : Nat × CPU :=
  let l := c.Fetch
  let h := l.2.Fetch
  let ta := ((h.1 % 256) <<< 8) ||| (l.1 % 256)
  (ta, { h.2 with TempAddress := ta })

def CPU.FetchAddress (c : CPU) (addr : Nat) : Nat := c.memory addr % 256

def CPU.Store (c : CPU) (addr v : Nat) : CPU :=
  { c with memory := fun x => if x = addr then v % 256 else c.memory x }

/-- StackPush writes the byte at `0x0100 | SP`, then decrements SP
with 8-bit wrap. -/
def CPU.StackPush (c : CPU) (v : Nat) : CPU :=
  let a := 0x0100 ||| (c.SP % 256)
  { c with
    memory := fun x => if x = a then v % 256 else c.memory x
    SP := (c.SP + 255) % 256 }

/-- StackPop increments SP with 8-bit wrap, then reads the byte at
`0x0100 | SP`. -/
def CPU.StackPop (c : CPU) : Nat × CPU :=
  let sp := (c.SP + 1) % 256
  (c.memory (0x0100 ||| sp) % 256, { c with SP := sp })

/-! Helpers from main.go. -/

def HighByte (a : Nat) : Nat := (a >>> 8) % 256

def LowByte (a : Nat) : Nat := 0xFF &&& a

/-- PageCrossed from main.go: each address is masked with 0xFF before
the shift by 8 (transcribed exactly as written). -/
def PageCrossed (a b : Nat) : Bool :=
  let pa := (a &&& 0xFF) >>> 8
  let pb := (b &&& 0xFF) >>> 8
  pa != pb

def ToAddress (hi lo : Nat) : Nat := ((hi % 256) <<< 8) ||| (lo % 256)

/-! Instruction semantics functions, from the `instructions` table in
main.go. Each returns the cycle count and the updated CPU. Names carry
the opcode byte. -/

/-- ADC immediate (opcode 0x69). The 9-bit sum is clamped to 0 (not
reduced mod 256) when it exceeds 0xFF, exactly as the Go code does. -/
def ADC_69 (c0 : CPU) : Nat × CPU :=
  let f := c0.Fetch
  let v := f.1
  let c := f.2
  let r0 := v + c.A.GetValue + c.Flags.GetFlagUint8 Carry
  let cf := decide (r0 > 0xFF)
  let r := if r0 > 0xFF then 0 else r0
  let r8 := r % 256
  let fl1 := c.Flags.SetFlag Carry cf
  let fl2 := fl1.SetZeroByValue r8
  let of := (r8 ^^^ c.A.GetValue) &&& (r8 ^^^ v) &&& 0x80
  let fl3 := fl2.SetFlag Overflow (decide (of ≠ 0))
  let fl4 := fl3.SetNegative r8
  (2, { c with Flags := fl4, A := c.A.SetRegister r8 })

/-- SBC immediate (opcode 0xE9). Go computes
`r := int8(a) + int8(^v) + int8(c)` with wrapping `int8` addition, which
reinterpreted as a byte is `(a + (v ^ 0xFF) + c) % 256`; `r == 0` as an
`int8` is `r8 = 0`. The Zero flag also consults the *incoming* Negative
flag, and Carry is set from the just-computed Negative flag. -/
def SBC_E9 (c0 : CPU) : Nat × CPU :=
  let f := c0.Fetch
  let v := f.1
  let c := f.2
  let a := c.A.GetValue
  let cin := c.Flags.GetFlagUint8 Carry
  let r8 := (a + (v ^^^ 0xFF) + cin) % 256
  let fl1 := c.Flags.SetFlag Zero (decide (r8 = 0) && !(c.Flags.GetFlag Negative))
  let of := (r8 ^^^ a) &&& (r8 ^^^ (v ^^^ 0xFF)) &&& 0x80
  let fl2 := fl1.SetFlag Overflow (decide (of ≠ 0))
  let fl3 := fl2.SetNegative r8
  let fl4 := if fl3.GetFlag Negative then fl3.SetFlag Carry false
             else fl3.SetFlag Carry true
  (2, { c with Flags := fl4, A := c.A.SetRegister r8 })

/-- BCS (opcode 0xB0): branch when Carry is set. -/
def BCS_B0 (c0 : CPU) : Nat × CPU :=
  let f := c0.Fetch
  let offset := f.1
  let c1 := { f.2 with TempAddress := (f.2.GetPC + offset) % 65536 }
  let c2 := if c1.Flags.GetFlag Carry then c1.SetPC c1.TempAddress else c1
  let cycles := (if c1.Flags.GetFlag Carry then 3 else 2)
  (if PageCrossed c2.PrevPC c2.TempAddress then cycles + 1 else cycles, c2)

/-- BCC (opcode 0x90): branch when Carry is clear. -/
def BCC_90 (c0 : CPU) : Nat × CPU :=
  let f := c0.Fetch
  let offset := f.1
  let c1 := { f.2 with TempAddress := (f.2.GetPC + offset) % 65536 }
  let c2 := if !(c1.Flags.GetFlag Carry) then c1.SetPC c1.TempAddress else c1
  let cycles := (if !(c1.Flags.GetFlag Carry) then 3 else 2)
  (if PageCrossed c2.PrevPC c2.TempAddress then cycles + 1 else cycles, c2)

/-- BEQ (opcode 0xF0): branch when Zero is set. -/
def BEQ_F0 (c0 : CPU) : Nat × CPU :=
  let f := c0.Fetch
  let offset := f.1
  let c1 := { f.2 with TempAddress := (f.2.GetPC + offset) % 65536 }
  let c2 := if c1.Flags.GetFlag Zero then c1.SetPC c1.TempAddress else c1
  let cycles := (if c1.Flags.GetFlag Zero then 3 else 2)
  (if PageCrossed c2.PrevPC c2.TempAddress then cycles + 1 else cycles, c2)

/-- BNE (opcode 0xD0): branch when Zero is clear. -/
def BNE_D0 (c0 : CPU) : Nat × CPU :=
  let f := c0.Fetch
  let offset := f.1
  let c1 := { f.2 with TempAddress := (f.2.GetPC + offset) % 65536 }
  let c2 := if !(c1.Flags.GetFlag Zero) then c1.SetPC c1.TempAddress else c1
  let cycles := (if !(c1.Flags.GetFlag Zero) then 3 else 2)
  (if PageCrossed c2.PrevPC c2.TempAddress then cycles + 1 else cycles, c2)

/-- BMI (opcode 0x30): branch when Negative is set. -/
def BMI_30 (c0 : CPU) : Nat × CPU :=
  let f := c0.Fetch
  let offset := f.1
  let c1 := { f.2 with TempAddress := (f.2.GetPC + offset) % 65536 }
  let c2 := if c1.Flags.GetFlag Negative then c1.SetPC c1.TempAddress else c1
  let cycles := (if c1.Flags.GetFlag Negative then 3 else 2)
  (if PageCrossed c2.PrevPC c2.TempAddress then cycles + 1 else cycles, c2)

/-- BPL (opcode 0x10): branch when Negative is clear. -/
def BPL_10 (c0 : CPU) : Nat × CPU :=
  let f := c0.Fetch
  let offset := f.1
  let c1 := { f.2 with TempAddress := (f.2.GetPC + offset) % 65536 }
  let c2 := if !(c1.Flags.GetFlag Negative) then c1.SetPC c1.TempAddress else c1
  let cycles := (if !(c1.Flags.GetFlag Negative) then 3 else 2)
  (if PageCrossed c2.PrevPC c2.TempAddress then cycles + 1 else cycles, c2)

/-- BVS (opcode 0x70): branch when Overflow is set. -/
def BVS_70 (c0 : CPU) : Nat × CPU :=
  let f := c0.Fetch
  let offset := f.1
  let c1 := { f.2 with TempAddress := (f.2.GetPC + offset) % 65536 }
  let c2 := if c1.Flags.GetFlag Overflow then c1.SetPC c1.TempAddress else c1
  let cycles := (if c1.Flags.GetFlag Overflow then 3 else 2)
  (if PageCrossed c2.PrevPC c2.TempAddress then cycles + 1 else cycles, c2)

/-- BVC (opcode 0x50): branch when Overflow is clear. -/
def BVC_50 (c0 : CPU) : Nat × CPU :=
  let f := c0.Fetch
  let offset := f.1
  let c1 := { f.2 with TempAddress := (f.2.GetPC + offset) % 65536 }
  let c2 := if !(c1.Flags.GetFlag Overflow) then c1.SetPC c1.TempAddress else c1
  let cycles := (if !(c1.Flags.GetFlag Overflow) then 3 else 2)
  (if PageCrossed c2.PrevPC c2.TempAddress then cycles + 1 else cycles, c2)

/-- JSR (opcode 0x20): push (pc-after-opcode + 1) high byte then low
byte, fetch the 16-bit target, jump there. -/
def JSR_20 (c0 : CPU) : Nat × CPU :=
  let pc := c0.GetPC
  let npc := (pc + 1) % 65536
  let c1 := c0.StackPush (HighByte npc)
  let c2 := c1.StackPush (LowByte npc)
  let f := c2.Fetch16
  let c3 := { f.2 with TempAddress := f.1 }
  (6, c3.SetPC c3.TempAddress)

/-- RTS (opcode 0x60): pop low byte then high byte, resume at the
popped address plus one. -/
def RTS_60 (c0 : CPU) : Nat × CPU :=
  let p1 := c0.StackPop
  let p2 := p1.2.StackPop
  (6, p2.2.SetPC (ToAddress p2.1 p1.1 + 1))

/-- PHP (opcode 0x08): push the flags byte ORed with 0x30 (bits 4 and 5
forced to 1). -/
def PHP_08 (c : CPU) : Nat × CPU :=
  let v := c.Flags.Value
  let nv := v ||| 0x30
  (3, c.StackPush nv)

/-- PLP (opcode 0x28): pop a byte and run the six positional setters
(Carry, Zero, InterruptDisable, Decimal, Overflow, Negative). -/
def PLP_28 (c0 : CPU) : Nat × CPU :=
  let p := c0.StackPop
  let v := p.1
  let c := p.2
  let fl := (((((c.Flags.SetCarry v).SetZero v).SetInterruptDisable
      v).SetDecimal v).SetOverflow v).SetNegative v
  (4, { c with Flags := fl })

/-! The cartridge loader, from gemu/cartridge.go. A file is modelled as
`Option (List Nat)`: `none` is a missing file (os.Open fails), `some
data` the byte contents. -/

/-- Models one `file.Read(buf)` call on a regular file: reading `k`
bytes at offset `pos` returns `min k (length - pos)` bytes, and an
`io.EOF` error exactly when the buffer is non-empty and no bytes
remain. -/
def fileRead (data : List Nat) (pos k : Nat) : Nat × Bool :=
  let n := min k (data.length - pos)
  (n, decide (0 < k) && decide (n = 0))

/-- Insert opens the file, reads and validates the 16-byte
header (magic bytes 4E 45 53 1A), read `header[4] * 16384` program-ROM
bytes, and unless `header[5] = 0` read `header[5] * 8192` character-ROM
bytes. Returns `some errorMessage` (a non-nil Go error) or `none`
(nil). -/
def Cartridge.Insert (file : Option (List Nat)) : Option String :=
  match file with
  | none => some "open failed"
  | some data =>
    let hdr := fileRead data 0 16
    if hdr.2 then some "read error"
    else if hdr.1 ≠ 16 then some "failed to read header"
    else if ¬(data.getD 0 0 = 0x4E ∧ data.getD 1 0 = 0x45 ∧
              data.getD 2 0 = 0x53 ∧ data.getD 3 0 = 0x1A) then
      some "invalid header"
    else
      let prgLen := data.getD 4 0 * 16384
      let prg := fileRead data 16 prgLen
      if prg.2 then some "read error"
      else if prg.1 ≠ prgLen then some "failed to read PRG"
      else if data.getD 5 0 = 0 then none
      else
        let chrLen := data.getD 5 0 * 8192
        let chr := fileRead data (16 + prgLen) chrLen
        if chr.2 then some "read error"
        else if chr.1 ≠ chrLen then some "failed to read CHR"
        else none

/-! Concrete states used by the closed theorems. -/

def reg0 : Register := { value := 0, previous := 0 }

/-- A baseline post-reset-like state with empty memory. -/
def baseCPU : CPU :=
  { pc := 0, SP := 0xFD, A := reg0, X := reg0, Y := reg0
    Flags := { flags := 0x24 }
    TempValue := 0, TempValue16 := 0, TempAddress := 0, TempAddress_2 := 0
    TempAddressValue := 0, PrevPC := 0, CyclesRemaining := 0
    TotalCycles := 7, memory := fun _ => 0 }

/-- Textbook 6502 ADC as the spec states it (a second definition
following the spec's words, for comparison with `ADC_69`): the 9-bit sum
`a + v + cin`, low 8 bits to the accumulator, Carry = bit 8 of the sum,
Overflow from the shared-sign rule, Zero/Negative from the result. -/
structure AluOut where
  result : Nat
  carry : Bool
  overflow : Bool
  zero : Bool
  negative : Bool

def ADC_textbook (a v cin : Nat) : AluOut :=
  let sum := a + v + cin
  let r := sum % 256
  { result := r
    carry := decide (256 ≤ sum)
    overflow := decide ((r ^^^ a) &&& (r ^^^ v) &&& 0x80 ≠ 0)
    zero := decide (r = 0)
    negative := decide (r &&& 0x80 ≠ 0) }

/-- Textbook SBC: ADC of the ones'-complemented operand (spec wording),
Carry set meaning no borrow. -/
def SBC_textbook (a v cin : Nat) : AluOut :=
  ADC_textbook a (v ^^^ 0xFF) cin

/-! Shared helper lemmas. -/

theorem pageCrossed_eq_false (a b : Nat) : PageCrossed a b = false := by
  unfold PageCrossed
  have ha : (a &&& 0xFF) >>> 8 = 0 := by
    rw [Nat.shiftRight_eq_div_pow]
    exact Nat.div_eq_of_lt (lt_of_le_of_lt Nat.and_le_right (by norm_num))
  have hb : (b &&& 0xFF) >>> 8 = 0 := by
    rw [Nat.shiftRight_eq_div_pow]
    exact Nat.div_eq_of_lt (lt_of_le_of_lt Nat.and_le_right (by norm_num))
  simp [ha, hb]

theorem lor_256 {s : Nat} (hs : s < 256) : 256 ||| s = 256 + s := by
  have h := Nat.mul_add_lt_is_or (show s < 2 ^ 8 from hs) 1
  norm_num at h
  exact h.symm

theorem lowByte_eq_mod (n : Nat) : LowByte n = n % 256 := by
  unfold LowByte
  rw [Nat.land_comm]
  have h255 : (255 : Nat) = 2 ^ 8 - 1 := by norm_num
  rw [h255, Nat.and_pow_two_sub_one_eq_mod]

theorem highByte_eq_div {n : Nat} (hn : n < 65536) : HighByte n = n / 256 := by
  unfold HighByte
  rw [Nat.shiftRight_eq_div_pow]
  have : n / 2 ^ 8 < 256 := by omega
  omega

theorem toAddress_hiLo {n : Nat} (hn : n < 65536) :
    ToAddress (HighByte n) (LowByte n) = n := by
  unfold ToAddress
  rw [lowByte_eq_mod, highByte_eq_div hn]
  have h1 : n / 256 % 256 = n / 256 := by omega
  have h2 : n % 256 % 256 = n % 256 := by omega
  rw [h1, h2, Nat.shiftLeft_eq]
  have h := Nat.mul_add_lt_is_or (show n % 256 < 2 ^ 8 by omega) (n / 256)
  rw [Nat.mul_comm]
  rw [← h]
  omega

theorem lowByte_lt (n : Nat) : LowByte n < 256 := by
  rw [lowByte_eq_mod]; omega

theorem highByte_lt (n : Nat) : HighByte n < 256 := by
  unfold HighByte; omega

/-! C5: state after Reset. -/

/-- C5: for every prior CPU state, immediately after Reset the program
counter is 0xC000, the stack pointer 0xFD, A, X, Y all zero and the
flags byte 0x24. -/
theorem C5_reset_state (c : CPU) :
    (c.Reset).pc = 0xC000 ∧ (c.Reset).SP = 0xFD ∧
    (c.Reset).A.GetValue = 0 ∧ (c.Reset).X.GetValue = 0 ∧
    (c.Reset).Y.GetValue = 0 ∧ (c.Reset).Flags.Value = 0x24 := by
  simp [CPU.Reset, CpuFlag.Reset, Register.GetValue, CpuFlag.Value]

/-! C4: PageCrossed is constantly false, so a taken branch always costs
3 cycles and an untaken one 2, never 4. -/

/-- C4: PageCrossed masks each address with 0xFF before shifting right
by 8, so it returns false on every pair of addresses; consequently every
branch instruction returns 3 cycles when its condition holds and 2 when
it does not — the page-crossing extra cycle is never added. -/
theorem C4_pageCrossed_always_false :
    (∀ a b, PageCrossed a b = false) ∧
    (∀ c : CPU, (BCS_B0 c).1 = if c.Flags.GetFlag Carry then 3 else 2) ∧
    (∀ c : CPU, (BCC_90 c).1 = if c.Flags.GetFlag Carry then 2 else 3) ∧
    (∀ c : CPU, (BEQ_F0 c).1 = if c.Flags.GetFlag Zero then 3 else 2) ∧
    (∀ c : CPU, (BNE_D0 c).1 = if c.Flags.GetFlag Zero then 2 else 3) ∧
    (∀ c : CPU, (BMI_30 c).1 = if c.Flags.GetFlag Negative then 3 else 2) ∧
    (∀ c : CPU, (BPL_10 c).1 = if c.Flags.GetFlag Negative then 2 else 3) ∧
    (∀ c : CPU, (BVS_70 c).1 = if c.Flags.GetFlag Overflow then 3 else 2) ∧
    (∀ c : CPU, (BVC_50 c).1 = if c.Flags.GetFlag Overflow then 2 else 3) := by
  refine ⟨pageCrossed_eq_false, ?_, ?_, ?_, ?_, ?_, ?_, ?_, ?_⟩ <;>
    intro c <;>
    simp [BCS_B0, BCC_90, BEQ_F0, BNE_D0, BMI_30, BPL_10, BVS_70, BVC_50,
      CPU.Fetch, CPU.SetPC, CPU.GetPC, pageCrossed_eq_false] <;>
    cases h : c.Flags.GetFlag Carry <;>
    cases h2 : c.Flags.GetFlag Zero <;>
    cases h3 : c.Flags.GetFlag Negative <;>
    cases h4 : c.Flags.GetFlag Overflow <;>
    simp [h, h2, h3, h4]

/-! C1: the code's ADC clamps an overflowing 9-bit sum to 0 instead of
keeping the low 8 bits, and the code's SBC derives Zero from the stale
Negative flag — both diverge from the textbook truth table the claim
(and the spec's §8 property) demands. -/

/-- ADC divergence state: A = 0xFF, operand 0x02 at pc, Carry clear. -/
def adcCex : CPU :=
  { baseCPU with
    pc := 0xD000
    A := { value := 0xFF, previous := 0 }
    memory := fun a => if a = 0xD000 then 0x02 else 0 }

/-- SBC divergence state: A = 0x01, operand 0x01 at pc, Carry set and
Negative set (flags 0x81). -/
def sbcCex : CPU :=
  { baseCPU with
    pc := 0xD000
    A := { value := 0x01, previous := 0 }
    Flags := { flags := 0x81 }
    memory := fun a => if a = 0xD000 then 0x01 else 0 }

/-- C1: at A = 0xFF, operand = 0x02, carry-in = 0 the textbook ADC
result is accumulator 0x01 with Zero clear, but the code's ADC yields
accumulator 0x00 with Zero set (the clamp-to-0 defect); and at
A = 0x01, operand = 0x01, carry-in = 1 the textbook SBC sets Zero, but
the code's SBC leaves Zero clear because it also consults the stale
Negative flag. So the code does not implement the claimed textbook
semantics. -/
theorem C1_adc_sbc_diverge_from_textbook :
    (ADC_textbook 0xFF 0x02 0).result = 0x01 ∧
    (ADC_textbook 0xFF 0x02 0).zero = false ∧
    (ADC_textbook 0xFF 0x02 0).carry = true ∧
    ((ADC_69 adcCex).2).A.GetValue = 0x00 ∧
    ((ADC_69 adcCex).2).Flags.GetFlag Zero = true ∧
    ((ADC_69 adcCex).2).A.GetValue ≠ (ADC_textbook 0xFF 0x02 0).result ∧
    (SBC_textbook 0x01 0x01 1).zero = true ∧
    ((SBC_E9 sbcCex).2).Flags.GetFlag Zero = false := by
  decide

/-! C2: a taken branch whose target lies on a different page still
returns 3 cycles, because PageCrossed is constantly false. -/

/-- BCS state: Carry set (flags 0x25), offset byte 0x10 at pc = 0xC0FE,
so the branch is taken and the target 0xC10F sits on page 0xC1 while
the pc before the operand fetch sits on page 0xC0. -/
def branchCex : CPU :=
  { baseCPU with
    pc := 0xC0FE
    Flags := { flags := 0x25 }
    memory := fun a => if a = 0xC0FE then 0x10 else 0 }

/-- C2: executing BCS in `branchCex` takes the branch to 0xC10F, whose
page (0xC1) differs from the page active before the operand fetch
(0xC0), yet the returned cycle count is 3, not the 4 the claim
requires. -/
theorem C2_page_cross_cycle_missing :
    (BCS_B0 branchCex).1 = 3 ∧
    (BCS_B0 branchCex).2.pc = 0xC10F ∧
    HighByte 0xC0FE = 0xC0 ∧ HighByte 0xC10F = 0xC1 ∧
    (3 : Nat) ≠ 4 := by
  decide

/-! C3: the branch offset is zero-extended (`uint16(offset)`), not
sign-extended, so an offset byte ≥ 0x80 moves the pc forwards. -/

/-- BNE state: Zero clear (flags 0x24), offset byte 0xFB at
pc = 0xC001. -/
def bneCex : CPU :=
  { baseCPU with
    pc := 0xC001
    memory := fun a => if a = 0xC001 then 0xFB else 0 }

/-- C3: executing BNE in `bneCex` (offset byte 0xFB, i.e. −5 as a
signed byte) lands at 0xC0FD = 0xC002 + 0x00FB instead of the claimed
signed target 0xBFFD = 0xC002 − 5; the pc moves forwards, not
backwards. -/
theorem C3_branch_offset_not_signed :
    (BNE_D0 bneCex).2.pc = 0xC0FD ∧
    (0xC0FD : Nat) ≠ 0xBFFD ∧
    0xC002 < 0xC0FD := by
  decide

/-! C7: stack push/pop round-trips. -/

/-- C7: for any CPU state with a byte-valued stack pointer, pushing a
byte and popping it returns exactly that byte and restores SP; pushing
the high then low byte of a 16-bit address and popping low then high
reconstructs the address via `ToAddress` and restores SP; a push writes
only inside the stack page 0x0100–0x01FF (memory elsewhere is
untouched) and a pop reads only inside it; and SP moves with wraparound
modulo 256. -/
theorem C7_stack_roundtrip (c : CPU) (v addr a : Nat)
    (hv : v < 256) (hsp : c.SP < 256) (haddr : addr < 65536)
    (ha : a < 0x0100 ∨ 0x01FF < a) :
    (((c.StackPush v).StackPop).1 = v ∧
      ((c.StackPush v).StackPop).2.SP = c.SP) ∧
    (ToAddress
        ((((c.StackPush (HighByte addr)).StackPush (LowByte addr)).StackPop).2.StackPop).1
        ((((c.StackPush (HighByte addr)).StackPush (LowByte addr)).StackPop).1) = addr ∧
      ((((c.StackPush (HighByte addr)).StackPush (LowByte addr)).StackPop).2.StackPop).2.SP
        = c.SP) ∧
    ((c.StackPush v).memory a = c.memory a) ∧
    (0x0100 ≤ 0x0100 ||| (c.SP % 256) ∧ 0x0100 ||| (c.SP % 256) ≤ 0x01FF ∧
      0x0100 ≤ 0x0100 ||| ((c.SP + 1) % 256) ∧ 0x0100 ||| ((c.SP + 1) % 256) ≤ 0x01FF) ∧
    ((c.StackPush v).SP = (c.SP + 255) % 256 ∧ ((c.StackPop).2).SP = (c.SP + 1) % 256) := by
  have hsp1 : c.SP % 256 = c.SP := Nat.mod_eq_of_lt hsp
  have hwrap : ((c.SP + 255) % 256 + 1) % 256 = c.SP := by omega
  have hlor : 256 ||| c.SP = 256 + c.SP := lor_256 hsp
  have hlor1 : 256 ||| ((c.SP + 1) % 256) = 256 + (c.SP + 1) % 256 :=
    lor_256 (by omega)
  refine ⟨⟨?_, ?_⟩, ⟨?_, ?_⟩, ?_, ⟨?_, ?_, ?_, ?_⟩, ?_, ?_⟩
  · simp [CPU.StackPush, CPU.StackPop, hsp1, hwrap]
    omega
  · simp [CPU.StackPush, CPU.StackPop, hsp1, hwrap]
  · -- address round-trip
    have hq0 : (c.SP + 255) % 256 % 256 = (c.SP + 255) % 256 := by omega
    have hq1 : (((c.SP + 255) % 256 + 255) % 256 + 1) % 256 = (c.SP + 255) % 256 := by
      omega
    have hne : (256 : Nat) ||| c.SP ≠ 256 ||| ((c.SP + 255) % 256) := by
      rw [hlor, lor_256 (by omega)]
      omega
    simp only [CPU.StackPush, CPU.StackPop, hsp1, hq0, hq1, hwrap]
    rw [if_neg hne]
    simp only [if_true]
    rw [Nat.mod_eq_of_lt (lowByte_lt addr), Nat.mod_eq_of_lt (lowByte_lt addr),
      Nat.mod_eq_of_lt (highByte_lt addr), Nat.mod_eq_of_lt (highByte_lt addr)]
    exact toAddress_hiLo haddr
  · have hq0 : (c.SP + 255) % 256 % 256 = (c.SP + 255) % 256 := by omega
    have hq1 : (((c.SP + 255) % 256 + 255) % 256 + 1) % 256 = (c.SP + 255) % 256 := by
      omega
    simp only [CPU.StackPush, CPU.StackPop, hsp1, hq0, hq1, hwrap]
  · -- memory outside the stack page untouched
    have hne : a ≠ 256 ||| (c.SP % 256) := by
      rw [hsp1, hlor]; omega
    simp only [CPU.StackPush]
    rw [if_neg hne]
  · rw [hsp1, hlor]; omega
  · rw [hsp1, hlor]; omega
  · rw [hlor1]; omega
  · rw [hlor1]; omega
  · simp [CPU.StackPush]
  · simp [CPU.StackPop]

/-- C7 witness at a concrete state and inputs. -/
theorem C7_stack_roundtrip_witness :
    ((((baseCPU.StackPush 0xAB).StackPop).1 = 0xAB ∧
      ((baseCPU.StackPush 0xAB).StackPop).2.SP = baseCPU.SP) ∧
    (ToAddress
        ((((baseCPU.StackPush (HighByte 0x1234)).StackPush (LowByte 0x1234)).StackPop).2.StackPop).1
        ((((baseCPU.StackPush (HighByte 0x1234)).StackPush (LowByte 0x1234)).StackPop).1) = 0x1234 ∧
      ((((baseCPU.StackPush (HighByte 0x1234)).StackPush (LowByte 0x1234)).StackPop).2.StackPop).2.SP
        = baseCPU.SP) ∧
    ((baseCPU.StackPush 0xAB).memory 0x2000 = baseCPU.memory 0x2000) ∧
    (0x0100 ≤ 0x0100 ||| (baseCPU.SP % 256) ∧ 0x0100 ||| (baseCPU.SP % 256) ≤ 0x01FF ∧
      0x0100 ≤ 0x0100 ||| ((baseCPU.SP + 1) % 256) ∧
      0x0100 ||| ((baseCPU.SP + 1) % 256) ≤ 0x01FF) ∧
    ((baseCPU.StackPush 0xAB).SP = (baseCPU.SP + 255) % 256 ∧
      ((baseCPU.StackPop).2).SP = (baseCPU.SP + 1) % 256)) :=
  C7_stack_roundtrip baseCPU 0xAB 0x1234 0x2000 (by decide) (by decide) (by decide)
    (Or.inr (by decide))

/-! C6: JSR/RTS round-trip. -/

/-- C6: for every state whose pc (the address S of the JSR opcode)
leaves room for the 3-byte instruction, fetching and executing JSR
(to whatever 16-bit target its operand bytes name) and then fetching
and executing RTS at that target leaves the program counter at S + 3. -/
theorem C6_jsr_rts_roundtrip (c : CPU) (h : c.pc + 3 < 65536) :
    (RTS_60 (((JSR_20 (c.Fetch).2).2).Fetch).2).2.pc = c.pc + 3 := by
  have hp1 : (c.pc + 1) % 65536 = c.pc + 1 := by omega
  have hp2 : (c.pc + 1 + 1) % 65536 = c.pc + 2 := by omega
  have he1 : (c.SP + 255) % 256 % 256 = (c.SP + 255) % 256 := by omega
  have he2 : (((c.SP + 255) % 256 + 255) % 256 + 1) % 256 = (c.SP + 255) % 256 := by
    omega
  have he4 : ((c.SP + 255) % 256 + 1) % 256 = c.SP % 256 := by omega
  have hne : (256 : Nat) ||| (c.SP % 256) ≠ 256 ||| ((c.SP + 255) % 256) := by
    rw [lor_256 (by omega), lor_256 (by omega)]
    omega
  have hnpc : (c.pc + 2) < 65536 := by omega
  simp only [RTS_60, JSR_20, CPU.Fetch, CPU.Fetch16, CPU.StackPush, CPU.StackPop,
    CPU.SetPC, CPU.GetPC, hp1, hp2, he1, he2, he4]
  rw [if_neg hne]
  simp only [if_true]
  rw [Nat.mod_eq_of_lt (lowByte_lt (c.pc + 2)), Nat.mod_eq_of_lt (lowByte_lt (c.pc + 2)),
    Nat.mod_eq_of_lt (highByte_lt (c.pc + 2)), Nat.mod_eq_of_lt (highByte_lt (c.pc + 2)),
    toAddress_hiLo hnpc]
  omega

/-- C6 witness: a JSR at 0xC000 followed by RTS resumes at 0xC003. -/
theorem C6_jsr_rts_roundtrip_witness :
    (RTS_60 (((JSR_20 ({ baseCPU with pc := 0xC000 } : CPU).Fetch.2).2).Fetch).2).2.pc
      = 0xC000 + 3 :=
  C6_jsr_rts_roundtrip { baseCPU with pc := 0xC000 } (by decide)

/-! C8: PHP/PLP. The PHP half of the claim holds; the PLP half fails,
because PLP only runs the six positional setters and never touches the
Break and Unused bits of the live flags register. -/

theorem testBit_255 (j : Nat) : (255 : Nat).testBit j = decide (j < 8) := by
  rw [show (255 : Nat) = 2 ^ 8 - 1 from rfl, Nat.testBit_two_pow_sub_one]

theorem testBit_mod256 (x j : Nat) :
    (x % 256).testBit j = (decide (j < 8) && x.testBit j) :=
  Nat.testBit_mod_two_pow x 8 j

/-- Effect of `SetFlag` on a single bit position below 8. -/
theorem testBit_SetFlag (f : CpuFlag) (b : Nat) (val : Bool) (j : Nat) (hj : j < 8) :
    ((f.SetFlag b val).flags).testBit j
      = if b.testBit j then val else f.flags.testBit j := by
  unfold CpuFlag.SetFlag
  cases val with
  | true =>
    simp only [if_true, Nat.testBit_or]
    cases hb : b.testBit j <;> simp [hb]
  | false =>
    simp only [Bool.false_eq_true, if_false, Nat.testBit_and, Nat.testBit_xor, testBit_255]
    cases hb : b.testBit j <;> simp [hb, hj]

/-- SetFlag leaves a bit alone when the mask does not cover it. -/
theorem testBit_SetFlag_ne (f : CpuFlag) (b : Nat) (val : Bool) (j : Nat) (hj : j < 8)
    (hb : b.testBit j = false) :
    ((f.SetFlag b val).flags).testBit j = f.flags.testBit j := by
  rw [testBit_SetFlag f b val j hj, hb]
  simp

/-- SetFlag overwrites a bit its mask covers. -/
theorem testBit_SetFlag_eq (f : CpuFlag) (b : Nat) (val : Bool) (j : Nat) (hj : j < 8)
    (hb : b.testBit j = true) :
    ((f.SetFlag b val).flags).testBit j = val := by
  rw [testBit_SetFlag f b val j hj, hb]
  simp

theorem and_two_pow_ne_zero (v i : Nat) :
    decide (v &&& 2 ^ i ≠ 0) = v.testBit i := by
  rw [Nat.and_two_pow]
  cases h : v.testBit i <;>
    simp [Nat.pos_iff_ne_zero.mp (Nat.two_pow_pos i)]

theorem decide_and1 (v : Nat) : decide (v &&& 1 ≠ 0) = v.testBit 0 :=
  and_two_pow_ne_zero v 0

theorem decide_and2 (v : Nat) : decide (v &&& 2 ≠ 0) = v.testBit 1 :=
  and_two_pow_ne_zero v 1

theorem decide_and4 (v : Nat) : decide (v &&& 4 ≠ 0) = v.testBit 2 :=
  and_two_pow_ne_zero v 2

theorem decide_and8 (v : Nat) : decide (v &&& 8 ≠ 0) = v.testBit 3 :=
  and_two_pow_ne_zero v 3

theorem decide_and64 (v : Nat) : decide (v &&& 64 ≠ 0) = v.testBit 6 :=
  and_two_pow_ne_zero v 6

theorem decide_and128 (v : Nat) : decide (v &&& 128 ≠ 0) = v.testBit 7 :=
  and_two_pow_ne_zero v 7

/-- PLP counterexample state: flags 0x24 (Break clear, Unused set),
byte 0x10 (only bit 4 set) waiting on the stack at 0x01FD. -/
def plpCex : CPU :=
  { baseCPU with
    SP := 0xFC
    memory := fun a => if a = 0x01FD then 0x10 else 0 }

/-- C8 counterexample: in `plpCex` the popped byte is 0x10, but after
PLP the flags byte is 0x20 — bit 4 (Break) of the flags is not the
bit 4 of the popped byte, and bit 5 (Unused) differs too, so PLP does
not restore the flags byte bit-for-bit. -/
theorem C8_plp_not_bit_for_bit :
    (plpCex.StackPop).1 = 0x10 ∧
    ((PLP_28 plpCex).2).Flags.Value = 0x20 ∧
    ((PLP_28 plpCex).2).Flags.Value ≠ (plpCex.StackPop).1 := by
  decide

/-- C8 amended: PHP pushes the flags byte with bits 4 and 5 forced to 1
(bits 0–3 and 6–7 of the pushed byte equal the live flags byte); PLP
sets the Carry, Zero, InterruptDisable, Decimal, Overflow and Negative
bits of the flags register from the corresponding bits of the popped
byte, and leaves the Break (bit 4) and Unused (bit 5) flag bits
unchanged. -/
theorem C8_php_plp_amended (c : CPU) :
    ((((PHP_08 c).2).memory (0x0100 ||| (c.SP % 256))).testBit 4 = true ∧
      (((PHP_08 c).2).memory (0x0100 ||| (c.SP % 256))).testBit 5 = true ∧
      (((PHP_08 c).2).memory (0x0100 ||| (c.SP % 256))).testBit 0 = (c.Flags.Value).testBit 0 ∧
      (((PHP_08 c).2).memory (0x0100 ||| (c.SP % 256))).testBit 1 = (c.Flags.Value).testBit 1 ∧
      (((PHP_08 c).2).memory (0x0100 ||| (c.SP % 256))).testBit 2 = (c.Flags.Value).testBit 2 ∧
      (((PHP_08 c).2).memory (0x0100 ||| (c.SP % 256))).testBit 3 = (c.Flags.Value).testBit 3 ∧
      (((PHP_08 c).2).memory (0x0100 ||| (c.SP % 256))).testBit 6 = (c.Flags.Value).testBit 6 ∧
      (((PHP_08 c).2).memory (0x0100 ||| (c.SP % 256))).testBit 7 = (c.Flags.Value).testBit 7) ∧
    ((((PLP_28 c).2).Flags.flags).testBit 0 = ((c.StackPop).1).testBit 0 ∧
      (((PLP_28 c).2).Flags.flags).testBit 1 = ((c.StackPop).1).testBit 1 ∧
      (((PLP_28 c).2).Flags.flags).testBit 2 = ((c.StackPop).1).testBit 2 ∧
      (((PLP_28 c).2).Flags.flags).testBit 3 = ((c.StackPop).1).testBit 3 ∧
      (((PLP_28 c).2).Flags.flags).testBit 6 = ((c.StackPop).1).testBit 6 ∧
      (((PLP_28 c).2).Flags.flags).testBit 7 = ((c.StackPop).1).testBit 7 ∧
      (((PLP_28 c).2).Flags.flags).testBit 4 = (c.Flags.flags).testBit 4 ∧
      (((PLP_28 c).2).Flags.flags).testBit 5 = (c.Flags.flags).testBit 5) := by
  constructor
  · have hpush : (((PHP_08 c).2).memory (0x0100 ||| (c.SP % 256)))
        = (c.Flags.Value ||| 0x30) % 256 := by
      simp [PHP_08, CPU.StackPush]
    rw [hpush]
    simp only [testBit_mod256, Nat.testBit_or]
    refine ⟨?_, ?_, ?_, ?_, ?_, ?_, ?_, ?_⟩ <;>
      simp [show (48 : Nat).testBit 4 = true from by decide,
        show (48 : Nat).testBit 5 = true from by decide,
        show (48 : Nat).testBit 0 = false from by decide,
        show (48 : Nat).testBit 1 = false from by decide,
        show (48 : Nat).testBit 2 = false from by decide,
        show (48 : Nat).testBit 3 = false from by decide,
        show (48 : Nat).testBit 6 = false from by decide,
        show (48 : Nat).testBit 7 = false from by decide]
  · simp only [PLP_28, CpuFlag.SetCarry, CpuFlag.SetZero, CpuFlag.SetInterruptDisable,
      CpuFlag.SetDecimal, CpuFlag.SetOverflow, CpuFlag.SetNegative,
      Carry, Zero, InterruptDisable, Decimal, Overflow, Negative, CPU.StackPop]
    refine ⟨?_, ?_, ?_, ?_, ?_, ?_, ?_, ?_⟩
    · rw [testBit_SetFlag_ne _ _ _ _ (by decide) (by decide),
        testBit_SetFlag_ne _ _ _ _ (by decide) (by decide),
        testBit_SetFlag_ne _ _ _ _ (by decide) (by decide),
        testBit_SetFlag_ne _ _ _ _ (by decide) (by decide),
        testBit_SetFlag_ne _ _ _ _ (by decide) (by decide),
        testBit_SetFlag_eq _ _ _ _ (by decide) (by decide), decide_and1]
    · rw [testBit_SetFlag_ne _ _ _ _ (by decide) (by decide),
        testBit_SetFlag_ne _ _ _ _ (by decide) (by decide),
        testBit_SetFlag_ne _ _ _ _ (by decide) (by decide),
        testBit_SetFlag_ne _ _ _ _ (by decide) (by decide),
        testBit_SetFlag_eq _ _ _ _ (by decide) (by decide), decide_and2]
    · rw [testBit_SetFlag_ne _ _ _ _ (by decide) (by decide),
        testBit_SetFlag_ne _ _ _ _ (by decide) (by decide),
        testBit_SetFlag_ne _ _ _ _ (by decide) (by decide),
        testBit_SetFlag_eq _ _ _ _ (by decide) (by decide), decide_and4]
    · rw [testBit_SetFlag_ne _ _ _ _ (by decide) (by decide),
        testBit_SetFlag_ne _ _ _ _ (by decide) (by decide),
        testBit_SetFlag_eq _ _ _ _ (by decide) (by decide), decide_and8]
    · rw [testBit_SetFlag_ne _ _ _ _ (by decide) (by decide),
        testBit_SetFlag_eq _ _ _ _ (by decide) (by decide), decide_and64]
    · rw [testBit_SetFlag_eq _ _ _ _ (by decide) (by decide), decide_and128]
    · rw [testBit_SetFlag_ne _ _ _ _ (by decide) (by decide),
        testBit_SetFlag_ne _ _ _ _ (by decide) (by decide),
        testBit_SetFlag_ne _ _ _ _ (by decide) (by decide),
        testBit_SetFlag_ne _ _ _ _ (by decide) (by decide),
        testBit_SetFlag_ne _ _ _ _ (by decide) (by decide),
        testBit_SetFlag_ne _ _ _ _ (by decide) (by decide)]
    · rw [testBit_SetFlag_ne _ _ _ _ (by decide) (by decide),
        testBit_SetFlag_ne _ _ _ _ (by decide) (by decide),
        testBit_SetFlag_ne _ _ _ _ (by decide) (by decide),
        testBit_SetFlag_ne _ _ _ _ (by decide) (by decide),
        testBit_SetFlag_ne _ _ _ _ (by decide) (by decide),
        testBit_SetFlag_ne _ _ _ _ (by decide) (by decide)]

/-! C9: loading a 16KB program-ROM mirrors it at 0x8000 and 0xC000 and
leaves low memory untouched. -/

/-- C9: after LoadCartridge of a 16KB image, byte i of the program-ROM
is visible at 0x8000 + i and at 0xC000 + i, and memory below 0x8000 is
unchanged. -/
theorem C9_cartridge_mirrored (c : CPU) (prg : List Nat)
    (hlen : prg.length = 16384) :
    (∀ i, i < 16384 →
      (c.LoadCartridge prg).memory (0x8000 + i) = prg.getD i 0 ∧
      (c.LoadCartridge prg).memory (0xC000 + i) = prg.getD i 0) ∧
    (∀ a, a < 0x8000 → (c.LoadCartridge prg).memory a = c.memory a) := by
  simp only [CPU.LoadCartridge, hlen]
  refine ⟨fun i hi => ⟨?_, ?_⟩, fun a ha => ?_⟩
  · have hc1 : ¬(0xC000 ≤ 0x8000 + i ∧ 0x8000 + i < 0xC000 + min 16384 0x4000) := by
      omega
    have hc2 : 0x8000 ≤ 0x8000 + i ∧ 0x8000 + i < 0x8000 + min 16384 0x8000 := by
      omega
    rw [if_neg hc1, if_pos hc2]
    have hsub : 0x8000 + i - 0x8000 = i := by omega
    rw [hsub]
  · have hc1 : 0xC000 ≤ 0xC000 + i ∧ 0xC000 + i < 0xC000 + min 16384 0x4000 := by
      omega
    rw [if_pos hc1]
    have hsub : 0xC000 + i - 0xC000 = i := by omega
    rw [hsub]
  · have hc1 : ¬(0xC000 ≤ a ∧ a < 0xC000 + min 16384 0x4000) := by omega
    have hc2 : ¬(0x8000 ≤ a ∧ a < 0x8000 + min 16384 0x8000) := by omega
    rw [if_neg hc1, if_neg hc2]

/-- A concrete 16KB program-ROM image. -/
def prg16 : List Nat := List.replicate 16384 0x35

/-- C9 witness at a concrete state and image. -/
theorem C9_cartridge_mirrored_witness :
    (baseCPU.LoadCartridge prg16).memory 0x8000 = prg16.getD 0 0 ∧
    (baseCPU.LoadCartridge prg16).memory 0xC000 = prg16.getD 0 0 ∧
    (baseCPU.LoadCartridge prg16).memory 0x1234 = baseCPU.memory 0x1234 := by
  have h := C9_cartridge_mirrored baseCPU prg16
    (by unfold prg16; exact List.length_replicate 16384 0x35)
  exact ⟨(h.1 0 (by decide)).1, (h.1 0 (by decide)).2, h.2 0x1234 (by decide)⟩

/-! C10: Cartridge.Insert error behaviour. -/

/-- C10: Insert succeeds (returns a nil error) exactly when the file
exists, holds at least the 16-byte header, starts with the magic bytes
4E 45 53 1A, and contains all program-ROM and character-ROM bytes the
header's bytes 4 and 5 declare (byte 5 = 0 meaning no character-ROM
bytes follow); in every other case — missing file, short header, bad
magic, truncated ROM data — it returns a non-nil error. -/
theorem C10_insert_error_conditions (file : Option (List Nat)) :
    Cartridge.Insert file = none ↔
      ∃ data, file = some data ∧ 16 ≤ data.length ∧
        data.getD 0 0 = 0x4E ∧ data.getD 1 0 = 0x45 ∧
        data.getD 2 0 = 0x53 ∧ data.getD 3 0 = 0x1A ∧
        16 + data.getD 4 0 * 16384 + data.getD 5 0 * 8192 ≤ data.length := by
  cases file with
  | none => simp [Cartridge.Insert]
  | some data =>
    simp only [Cartridge.Insert, fileRead, Option.some.injEq]
    constructor
    · intro hnone
      refine ⟨data, rfl, ?_⟩
      by_cases h1 : (decide (0 < 16) && decide (min 16 (data.length - 0) = 0)) = true
      · rw [if_pos h1] at hnone
        exact absurd hnone (by simp)
      · rw [if_neg h1] at hnone
        by_cases h2 : min 16 (data.length - 0) ≠ 16
        · rw [if_pos h2] at hnone
          exact absurd hnone (by simp)
        · rw [if_neg h2] at hnone
          by_cases h3 : ¬(data.getD 0 0 = 0x4E ∧ data.getD 1 0 = 0x45 ∧
              data.getD 2 0 = 0x53 ∧ data.getD 3 0 = 0x1A)
          · rw [if_pos h3] at hnone
            exact absurd hnone (by simp)
          · rw [if_neg h3] at hnone
            push_neg at h3
            by_cases h4 : (decide (0 < data.getD 4 0 * 16384) &&
                decide (min (data.getD 4 0 * 16384) (data.length - 16) = 0)) = true
            · rw [if_pos h4] at hnone
              exact absurd hnone (by simp)
            · rw [if_neg h4] at hnone
              by_cases h5 : min (data.getD 4 0 * 16384) (data.length - 16)
                  ≠ data.getD 4 0 * 16384
              · rw [if_pos h5] at hnone
                exact absurd hnone (by simp)
              · rw [if_neg h5] at hnone
                by_cases h6 : data.getD 5 0 = 0
                · refine ⟨by omega, h3.1, h3.2.1, h3.2.2.1, h3.2.2.2, ?_⟩
                  simp only [not_not] at h5
                  omega
                · rw [if_neg h6] at hnone
                  by_cases h7 : (decide (0 < data.getD 5 0 * 8192) &&
                      decide (min (data.getD 5 0 * 8192)
                        (data.length - (16 + data.getD 4 0 * 16384)) = 0)) = true
                  · rw [if_pos h7] at hnone
                    exact absurd hnone (by simp)
                  · rw [if_neg h7] at hnone
                    by_cases h8 : min (data.getD 5 0 * 8192)
                        (data.length - (16 + data.getD 4 0 * 16384))
                        ≠ data.getD 5 0 * 8192
                    · rw [if_pos h8] at hnone
                      exact absurd hnone (by simp)
                    · simp only [not_not] at h5 h8
                      refine ⟨by omega, h3.1, h3.2.1, h3.2.2.1, h3.2.2.2, by omega⟩
    · rintro ⟨data2, heq, hlen, hm0, hm1, hm2, hm3, hbound⟩
      subst heq
      rw [if_neg (show ¬((decide (0 < 16) &&
            decide (min 16 (data.length - 0) = 0)) = true) by
          simp only [Bool.and_eq_true, decide_eq_true_eq]
          omega),
        if_neg (show ¬(min 16 (data.length - 0) ≠ 16) by omega),
        if_neg (not_not_intro ⟨hm0, hm1, hm2, hm3⟩),
        if_neg (show ¬((decide (0 < data.getD 4 0 * 16384) &&
            decide (min (data.getD 4 0 * 16384) (data.length - 16) = 0)) = true) by
          simp only [Bool.and_eq_true, decide_eq_true_eq]
          omega),
        if_neg (show ¬(min (data.getD 4 0 * 16384) (data.length - 16)
            ≠ data.getD 4 0 * 16384) by omega)]
      by_cases h6 : data.getD 5 0 = 0
      · rw [if_pos h6]
      · rw [if_neg h6,
          if_neg (show ¬((decide (0 < data.getD 5 0 * 8192) &&
              decide (min (data.getD 5 0 * 8192)
                (data.length - (16 + data.getD 4 0 * 16384)) = 0)) = true) by
            simp only [Bool.and_eq_true, decide_eq_true_eq]
            omega),
          if_neg (show ¬(min (data.getD 5 0 * 8192)
              (data.length - (16 + data.getD 4 0 * 16384))
              ≠ data.getD 5 0 * 8192) by omega)]

end Gemu
